import Mathlib

/-!
# Verification of the NBA prediction engine's fair-line core

Shallow embedding of the fair-line computation and its diagnostics from
`nba_analytics.py`, `edge_analyzer.py`, `nba_engine_ui.py` and
`recalc_trackers.py`.  Python floats are modelled as rationals; Python's
two-decimal `round` (banker's rounding) is modelled exactly by `round2`;
fallible code returns `Except`/`Option`.
-/

namespace NbaEngine

/-- Python's `round` to an integer: round half to even (banker's rounding). -/
def pyRound (x : ℚ) : ℤ :=
  if x - ⌊x⌋ < 1/2 then ⌊x⌋
  else if x - ⌊x⌋ > 1/2 then ⌊x⌋ + 1
  else if Even ⌊x⌋ then ⌊x⌋ else ⌊x⌋ + 1

/-- Python's `round(x, 2)`: round to two decimal places, half to even. -/
def round2 (x : ℚ) : ℚ := (pyRound (x * 100) : ℚ) / 100

theorem floor_le_pyRound (x : ℚ) : ⌊x⌋ ≤ pyRound x := by
  unfold pyRound
  split_ifs <;> omega

theorem pyRound_le_floor_add_one (x : ℚ) : pyRound x ≤ ⌊x⌋ + 1 := by
  unfold pyRound
  split_ifs <;> omega

theorem pyRound_mono {x y : ℚ} (h : x ≤ y) : pyRound x ≤ pyRound y := by
  rcases lt_or_eq_of_le (Int.floor_le_floor h) with hf | hf
  · calc pyRound x ≤ ⌊x⌋ + 1 := pyRound_le_floor_add_one x
      _ ≤ ⌊y⌋ := by omega
      _ ≤ pyRound y := floor_le_pyRound y
  · unfold pyRound
    rw [← hf]
    have hxy : x - (⌊x⌋ : ℚ) ≤ y - (⌊x⌋ : ℚ) := by linarith
    split_ifs <;> first | omega | linarith

theorem pyRound_nonneg {x : ℚ} (h : 0 ≤ x) : 0 ≤ pyRound x := by
  have h0 : (0 : ℤ) ≤ ⌊x⌋ := Int.floor_nonneg.mpr h
  have := floor_le_pyRound x
  omega

theorem round2_mono {x y : ℚ} (h : x ≤ y) : round2 x ≤ round2 y := by
  unfold round2
  have : pyRound (x * 100) ≤ pyRound (y * 100) := pyRound_mono (by linarith)
  have hq : ((pyRound (x * 100) : ℚ)) ≤ (pyRound (y * 100) : ℚ) := by exact_mod_cast this
  linarith

theorem round2_nonneg {x : ℚ} (h : 0 ≤ x) : 0 ≤ round2 x := by
  unfold round2
  have : (0 : ℤ) ≤ pyRound (x * 100) := pyRound_nonneg (by linarith)
  have hq : (0 : ℚ) ≤ (pyRound (x * 100) : ℚ) := by exact_mod_cast this
  linarith

/-! ## String containment (Python's `in` operator on strings) -/

/-- `needle` is a prefix of `hay` (on character lists). -/
def isPrefixOfChars : List Char → List Char → Bool
  | [], _ => true
  | _ :: _, [] => false
  | c :: cs, d :: ds => c = d && isPrefixOfChars cs ds

/-- `needle` occurs as a contiguous substring of `hay`. -/
def containsSubChars (hay needle : List Char) : Bool :=
  match hay with
  | [] => needle.isEmpty
  | _ :: t => isPrefixOfChars needle hay || containsSubChars t needle

/-- Python's `needle in hay` for strings. -/
def strContains (hay needle : String) : Bool :=
  containsSubChars hay.toList needle.toList

/-- Python's `str.lower()` (ASCII, which covers all strings the engine
compares). -/
def strLower (s : String) : String := ⟨s.data.map Char.toLower⟩

/-- Python's `str.upper()` (ASCII). -/
def strUpper (s : String) : String := ⟨s.data.map Char.toUpper⟩

theorem isPrefixOfChars_refl (l : List Char) : isPrefixOfChars l l = true := by
  induction l with
  | nil => rfl
  | cons c cs ih => simp [isPrefixOfChars, ih]

theorem isPrefixOfChars_append (l r : List Char) :
    isPrefixOfChars l (l ++ r) = true := by
  induction l with
  | nil => rfl
  | cons c cs ih => simp [isPrefixOfChars, ih]

theorem containsSubChars_of_suffix (l r : List Char) :
    containsSubChars (l ++ r) r = true := by
  induction l with
  | nil =>
    cases r with
    | nil => rfl
    | cons c cs => simp [containsSubChars, isPrefixOfChars_refl]
  | cons c cs ih => simp [containsSubChars, ih]

theorem containsSubChars_append_left (l m : List Char)
    (h : containsSubChars m (l) = true) :
    ∀ pre : List Char, containsSubChars (pre ++ m) l = true := by
  intro pre
  induction pre with
  | nil => simpa using h
  | cons c cs ih => simp [containsSubChars, ih]

theorem containsSubChars_of_middle (pre mid post : List Char) :
    containsSubChars (pre ++ (mid ++ post)) mid = true := by
  apply containsSubChars_append_left
  cases mid with
  | nil => cases post <;> simp [containsSubChars, isPrefixOfChars]
  | cons c cs => simp [containsSubChars, isPrefixOfChars, isPrefixOfChars_append]

/-! ## Data model: cached snapshots consumed by the engine -/

/-- One row of the loaded ratings table (`nba_stats_cache.json` after
`calculate_pace_and_ratings` normalization). -/
structure TeamRow where
  team_id : Nat
  name : String
  OFF_RATING : ℚ
  DEF_RATING : ℚ
  NET_RATING : ℚ
  PACE : ℚ
deriving DecidableEq, Repr

/-- One injury-report row as produced by `get_injuries`. -/
structure InjuryPlayer where
  name : String
  position : String
  date : String
  status : String
  note : String
deriving DecidableEq, Repr

/-- One cached news item as produced by `get_news`. -/
structure NewsItem where
  title : String
  summary : String
deriving DecidableEq, Repr

/-- Per-team entry of `nba_star_tax_cache.json`: player-name-keyed impacts
plus the prefetcher's error marker. -/
structure StarTaxTeam where
  players : List (String × ℚ)
  hasError : Bool
deriving DecidableEq, Repr

/-- The star-tax cache file, keyed by team id. -/
structure StarTaxCache where
  teams : List (Nat × StarTaxTeam)
deriving DecidableEq, Repr

/-- All cached snapshots a single fair-line computation reads.  `starTax = none`
models an absent or unreadable `nba_star_tax_cache.json`. -/
structure Env where
  ratings : List TeamRow
  injuries : List (String × List InjuryPlayer)
  restCache : List (String × ℚ)
  news : List NewsItem
  starTax : Option StarTaxCache
  today : String
deriving Repr

/-- `TEAM_ID_TO_NAME` from `nba_teams_static.py`. -/
def TEAM_ID_TO_NAME : List (Nat × String) :=
  [(1610612737, "Atlanta Hawks"), (1610612738, "Boston Celtics"),
   (1610612739, "Cleveland Cavaliers"), (1610612740, "New Orleans Pelicans"),
   (1610612741, "Chicago Bulls"), (1610612742, "Dallas Mavericks"),
   (1610612743, "Denver Nuggets"), (1610612744, "Golden State Warriors"),
   (1610612745, "Houston Rockets"), (1610612746, "Los Angeles Clippers"),
   (1610612747, "Los Angeles Lakers"), (1610612748, "Miami Heat"),
   (1610612749, "Milwaukee Bucks"), (1610612750, "Minnesota Timberwolves"),
   (1610612751, "Brooklyn Nets"), (1610612752, "New York Knicks"),
   (1610612753, "Orlando Magic"), (1610612754, "Indiana Pacers"),
   (1610612755, "Philadelphia 76ers"), (1610612756, "Phoenix Suns"),
   (1610612757, "Portland Trail Blazers"), (1610612758, "Sacramento Kings"),
   (1610612759, "San Antonio Spurs"), (1610612760, "Oklahoma City Thunder"),
   (1610612761, "Toronto Raptors"), (1610612762, "Utah Jazz"),
   (1610612763, "Memphis Grizzlies"), (1610612764, "Washington Wizards"),
   (1610612765, "Detroit Pistons"), (1610612766, "Charlotte Hornets")]

/-- `LEAGUE_BASELINE['OFF_RATING']` from `nba_analytics.py`. -/
def LEAGUE_BASELINE_OFF_RATING : ℚ := 115.5

/-- `LEAGUE_BASELINE['DEF_RATING']` from `nba_analytics.py`. -/
def LEAGUE_BASELINE_DEF_RATING : ℚ := 115.5

/-! ## Situational adjustment resolvers (`nba_analytics.py`) -/

/-- Severity weight of an injury status string: first key of the `weights`
dict (in insertion order) contained in the lowercased status, else 0
(`get_star_tax_weighted`, line 176/200). -/
def statusWeight (status : String) : ℚ :=
  let sl := strLower status
  if strContains sl "out" then 1.0
  else if strContains sl "doubtful" then 0.9
  else if strContains sl "questionable" then 0.5
  else if strContains sl "game time decision" then 0.5
  else if strContains sl "probable" then 0.1
  else if strContains sl "day-to-day" then 0.5
  else 0

/-- `get_star_tax_weighted` (`nba_analytics.py` lines 170-221).
`none` models Python's `None` sentinel (cache missing/unreadable, or a
team entry carrying the prefetch `error` marker); `some q` models a
numeric tax. -/
def get_star_tax_weighted (cache : Option StarTaxCache) (team_id : Nat)
    (out_players : List InjuryPlayer) : Option ℚ :=
  if out_players.isEmpty then some 0
  else
    match cache with
    | none => none
    | some c =>
      let team_data := ((c.teams.lookup team_id).getD ⟨[], false⟩)
      if team_data.players.isEmpty then
        if team_data.hasError then none else some 0
      else
        let total_tax := (out_players.map (fun p =>
          let weight := statusWeight p.status
          if weight ≤ 0 then 0
          else
            match team_data.players.lookup (strLower p.name) with
            | some pm => pm * weight
            | none => 0)).sum
        some (round2 (total_tax / 2))

/-- `get_rest_penalty` (`nba_analytics.py` lines 223-245): map the team id to
its static full name, then look the name up in the cached rest-penalty rows;
every failure path yields 0. -/
def get_rest_penalty (env : Env) (team_id : Nat) : ℚ :=
  match TEAM_ID_TO_NAME.lookup team_id with
  | none => 0
  | some team_name =>
    match env.restCache.lookup team_name with
    | some p => p
    | none => 0

/-! ## Team-name resolution -/

/-- Abstract stand-in for `difflib.get_close_matches(name, team_list, n=1,
cutoff=0.7)` (Python standard library, external to this repository):
`some m` is the single close match, `none` means no candidate reached the
similarity cutoff. -/
abbrev FuzzyMatcher := String → List String → Option String

/-- The nickname→full-name alias table built inside
`nba_analytics.predict_nba_spread` (lines 257-288). -/
def short_to_full_analytics : List (String × String) :=
  [("Hawks", "Atlanta Hawks"), ("Celtics", "Boston Celtics"),
   ("Nets", "Brooklyn Nets"), ("Hornets", "Charlotte Hornets"),
   ("Bulls", "Chicago Bulls"), ("Cavaliers", "Cleveland Cavaliers"),
   ("Mavericks", "Dallas Mavericks"), ("Nuggets", "Denver Nuggets"),
   ("Pistons", "Detroit Pistons"), ("Warriors", "Golden State Warriors"),
   ("Rockets", "Houston Rockets"), ("Pacers", "Indiana Pacers"),
   ("Clippers", "Los Angeles Clippers"), ("Lakers", "Los Angeles Lakers"),
   ("Grizzlies", "Memphis Grizzlies"), ("Heat", "Miami Heat"),
   ("Bucks", "Milwaukee Bucks"), ("Timberwolves", "Minnesota Timberwolves"),
   ("Pelicans", "New Orleans Pelicans"), ("Knicks", "New York Knicks"),
   ("Thunder", "Oklahoma City Thunder"), ("Magic", "Orlando Magic"),
   ("76ers", "Philadelphia 76ers"), ("Suns", "Phoenix Suns"),
   ("Trail Blazers", "Portland Trail Blazers"), ("Kings", "Sacramento Kings"),
   ("Spurs", "San Antonio Spurs"), ("Raptors", "Toronto Raptors"),
   ("Jazz", "Utah Jazz"), ("Wizards", "Washington Wizards")]

/-- `SHORT_TO_FULL` from `edge_analyzer.py` (lines 41-52).  Note that it maps
"Clippers" to "LA Clippers", unlike the table in `nba_analytics.py`. -/
def SHORT_TO_FULL : List (String × String) :=
  [("Hawks", "Atlanta Hawks"), ("Celtics", "Boston Celtics"),
   ("Nets", "Brooklyn Nets"), ("Hornets", "Charlotte Hornets"),
   ("Bulls", "Chicago Bulls"), ("Cavaliers", "Cleveland Cavaliers"),
   ("Mavericks", "Dallas Mavericks"), ("Nuggets", "Denver Nuggets"),
   ("Pistons", "Detroit Pistons"), ("Warriors", "Golden State Warriors"),
   ("Rockets", "Houston Rockets"), ("Pacers", "Indiana Pacers"),
   ("Clippers", "LA Clippers"), ("Lakers", "Los Angeles Lakers"),
   ("Grizzlies", "Memphis Grizzlies"), ("Heat", "Miami Heat"),
   ("Bucks", "Milwaukee Bucks"), ("Timberwolves", "Minnesota Timberwolves"),
   ("Pelicans", "New Orleans Pelicans"), ("Knicks", "New York Knicks"),
   ("Thunder", "Oklahoma City Thunder"), ("Magic", "Orlando Magic"),
   ("76ers", "Philadelphia 76ers"), ("Suns", "Phoenix Suns"),
   ("Trail Blazers", "Portland Trail Blazers"), ("Kings", "Sacramento Kings"),
   ("Spurs", "San Antonio Spurs"), ("Raptors", "Toronto Raptors"),
   ("Jazz", "Utah Jazz"), ("Wizards", "Washington Wizards")]

/-- `fuzzy_team_match`: exact match, then alias table (only when its target is
present in the canonical list), then the fuzzy matcher, and finally the input
itself unchanged. -/
def fuzzy_team_match (tbl : List (String × String)) (fz : FuzzyMatcher)
    (name : String) (team_list : List String) : String :=
  if name ∈ team_list then name
  else
    match tbl.lookup name with
    | some full =>
      if full ∈ team_list then full
      else
        match fz name team_list with
        | some m => m
        | none => name
    | none =>
      match fz name team_list with
      | some m => m
      | none => name

/-- The `TEAM_NAME` column of the loaded ratings table. -/
def teamNames (env : Env) : List String := env.ratings.map (·.name)

/-- `ratings[ratings['TEAM_NAME'] == t].iloc[0]` — the first rating row with
the given name, if any. -/
def findRow (ratings : List TeamRow) (nm : String) : Option TeamRow :=
  ratings.find? (fun r => r.name = nm)

/-! ## News factor -/

/-- `item.get('title','').lower() + ' ' + item.get('summary','').lower()`. -/
def newsCombined (item : NewsItem) : String :=
  strLower item.title ++ " " ++ strLower item.summary

/-- Walk the characters of a name keeping the last maximal run of non-space
characters seen so far (`cur` is the current run, reversed). -/
def lastWordChars : List Char → List Char → Option (List Char) → Option (List Char)
  | [], cur, last => if cur.isEmpty then last else some cur.reverse
  | c :: t, cur, last =>
    if c = ' ' then
      lastWordChars t [] (if cur.isEmpty then last else some cur.reverse)
    else
      lastWordChars t (c :: cur) last

/-- The lowercased last word of a team name ("nickname"), as computed by
`name.split()` / `parts[-1]`; empty list when the name has no words. -/
def lastWordLower (s : String) : List String :=
  match lastWordChars s.toList [] none with
  | some w => [strLower ⟨w⟩]
  | none => []

/-- The matchup keyword set: the four (resolved and as-typed) team names
lowercased plus each resolved team's nickname. -/
def matchupKeywords (h_team a_team home_team away_team : String) : List String :=
  [strLower h_team, strLower a_team, strLower home_team, strLower away_team]
    ++ lastWordLower h_team ++ lastWordLower a_team

/-- Whether a news item mentions any of the matchup keywords. -/
def newsMentions (kws : List String) (item : NewsItem) : Bool :=
  kws.any (fun kw => strContains (newsCombined item) kw)

/-- Per-item news-factor contribution: 0 unless the item mentions one of this
game's teams; then −2 for a "late scratch" mention plus −1 for a
"coach fired" mention. -/
def newsContribution (kws : List String) (item : NewsItem) : ℚ :=
  if newsMentions kws item then
    (if strContains (newsCombined item) "late scratch" then -2 else 0)
      + (if strContains (newsCombined item) "coach fired" then -1 else 0)
  else 0

/-- The accumulated `news_factor` over all cached news items. -/
def news_factor_for (kws : List String) (news : List NewsItem) : ℚ :=
  (news.map (newsContribution kws)).sum

/-! ## Fair-line compositor (`predict_nba_spread`, `nba_analytics.py` 247-369) -/

/-- `REGRESS_FACTOR` (75% team, 25% league baseline). -/
def REGRESS_FACTOR : ℚ := 0.75

/-- The late-breaking-news flag computed over the whole injury report and the
news cache (lines 311-323), before the star-tax failure flag is OR-ed in. -/
def lateBreakingFlag (env : Env) : Bool :=
  env.injuries.any (fun tp => tp.2.any (fun p =>
      (strLower p.status = "out" || strLower p.status = "late scratch"
        || strLower p.status = "day-to-day" || strLower p.status = "out for the season")
      && (p.date = "" || strContains p.date env.today)))
  || env.news.any (fun item =>
      strContains (strLower item.title) "late scratch"
        || strContains (strLower item.summary) "late scratch")

/-- The tuple returned by `predict_nba_spread`. -/
structure PredictResult where
  fairLine : ℚ
  qPlayers : List String
  news : List NewsItem
  flag : Bool
  starTaxFailed : Bool
deriving DecidableEq, Repr

/-- The success branch of `predict_nba_spread`, once both teams have rating
rows: loads situational data, applies star tax, rest, HCA, regression and the
news factor, and rounds the fair line to two decimals. -/
def mkPredict (env : Env) (away_team home_team h_team a_team : String)
    (h_row a_row : TeamRow) : PredictResult :=
  let h_rest := get_rest_penalty env h_row.team_id
  let a_rest := get_rest_penalty env a_row.team_id
  let h_out := (env.injuries.lookup h_row.name).getD []
  let a_out := (env.injuries.lookup a_row.name).getD []
  let h_tax_raw := get_star_tax_weighted env.starTax h_row.team_id h_out
  let a_tax_raw := get_star_tax_weighted env.starTax a_row.team_id a_out
  let star_tax_failed := h_tax_raw.isNone || a_tax_raw.isNone
  let flag := lateBreakingFlag env || star_tax_failed
  let h_tax := h_tax_raw.getD 0
  let a_tax := a_tax_raw.getD 0
  let kws := matchupKeywords h_team a_team home_team away_team
  let news_factor := news_factor_for kws env.news
  let rest_adj := h_rest - a_rest
  let hca : ℚ := 3.0
  let h_off := h_row.OFF_RATING * REGRESS_FACTOR
    + LEAGUE_BASELINE_OFF_RATING * (1 - REGRESS_FACTOR)
  let h_def := h_row.DEF_RATING * REGRESS_FACTOR
    + LEAGUE_BASELINE_DEF_RATING * (1 - REGRESS_FACTOR)
  let a_off := a_row.OFF_RATING * REGRESS_FACTOR
    + LEAGUE_BASELINE_OFF_RATING * (1 - REGRESS_FACTOR)
  let a_def := a_row.DEF_RATING * REGRESS_FACTOR
    + LEAGUE_BASELINE_DEF_RATING * (1 - REGRESS_FACTOR)
  let raw_diff := (h_off - a_def) - (a_off - h_def)
  let expected_pace := (h_row.PACE + a_row.PACE) / 2
  let fair_line := raw_diff * (expected_pace / 100) + hca + rest_adj
    - h_tax + a_tax + news_factor
  let q_players := ((h_out ++ a_out).filter
    (fun p => strContains p.status "questionable")).map (·.name)
  { fairLine := round2 fair_line
    qPlayers := q_players
    news := env.news
    flag := flag
    starTaxFailed := star_tax_failed }

/-- `predict_nba_spread(away_team, home_team)`: resolve both names against the
ratings table; on failure raise `Fuzzy match failed for {away} or {home}`. -/
def predict_nba_spread (env : Env) (fz : FuzzyMatcher)
    (away_team home_team : String) : Except String PredictResult :=
  let team_names := teamNames env
  let h_team := fuzzy_team_match short_to_full_analytics fz home_team team_names
  let a_team := fuzzy_team_match short_to_full_analytics fz away_team team_names
  match findRow env.ratings h_team, findRow env.ratings a_team with
  | some h_row, some a_row =>
    Except.ok (mkPredict env away_team home_team h_team a_team h_row a_row)
  | _, _ =>
    Except.error ("Fuzzy match failed for " ++ away_team ++ " or " ++ home_team)

/-- Extract the fair line of a prediction, if it succeeded. -/
def fairLineOf (e : Except String PredictResult) : Option ℚ :=
  match e with
  | .ok r => some r.fairLine
  | .error _ => none

/-! ## Decomposition reporter (`decompose_edge`, `edge_analyzer.py` 68-192) -/

/-- The decomposition dict returned by `decompose_edge` (fields relevant to
the fair line, the star tax and the edge). -/
structure DecompResult where
  home : String
  away : String
  h_tax : ℚ
  a_tax : ℚ
  star_tax_failed : Bool
  news_factor : ℚ
  rest_adj : ℚ
  hca : ℚ
  old_hca : ℚ
  fair_line : ℚ
  old_fair_line : ℚ
  market_line : Option ℚ
  edge : Option ℚ
  old_edge : Option ℚ
  q_players : List String
deriving DecidableEq, Repr

/-- The success branch of `decompose_edge`, once both teams have rating rows.
`HCA_FLAT = 3.0` and `REGRESS_FACTOR = 0.75` are the module constants of
`edge_analyzer.py`. -/
def mkDecomp (env : Env) (away_team home_team h_team a_team : String)
    (h_row a_row : TeamRow) (market_line : Option ℚ) : DecompResult :=
  let h_off := h_row.OFF_RATING * REGRESS_FACTOR
    + LEAGUE_BASELINE_OFF_RATING * (1 - REGRESS_FACTOR)
  let h_def := h_row.DEF_RATING * REGRESS_FACTOR
    + LEAGUE_BASELINE_DEF_RATING * (1 - REGRESS_FACTOR)
  let a_off := a_row.OFF_RATING * REGRESS_FACTOR
    + LEAGUE_BASELINE_OFF_RATING * (1 - REGRESS_FACTOR)
  let a_def := a_row.DEF_RATING * REGRESS_FACTOR
    + LEAGUE_BASELINE_DEF_RATING * (1 - REGRESS_FACTOR)
  let raw_diff_post := (h_off - a_def) - (a_off - h_def)
  let expected_pace := (h_row.PACE + a_row.PACE) / 2
  let pace_multiplier := expected_pace / 100
  let hca : ℚ := 3.0
  let old_hca := 3.0 + (h_row.NET_RATING - a_row.NET_RATING) / 20
  let h_rest := get_rest_penalty env h_row.team_id
  let a_rest := get_rest_penalty env a_row.team_id
  let rest_adj := h_rest - a_rest
  let h_injuries := (env.injuries.lookup h_row.name).getD []
  let a_injuries := (env.injuries.lookup a_row.name).getD []
  let h_tax_raw := get_star_tax_weighted env.starTax h_row.team_id h_injuries
  let a_tax_raw := get_star_tax_weighted env.starTax a_row.team_id a_injuries
  let star_tax_failed := h_tax_raw.isNone || a_tax_raw.isNone
  let h_tax := h_tax_raw.getD 0
  let a_tax := a_tax_raw.getD 0
  let kws := matchupKeywords h_team a_team home_team away_team
  let news_factor := news_factor_for kws env.news
  let raw_diff_pre := (h_row.OFF_RATING - a_row.DEF_RATING)
    - (a_row.OFF_RATING - h_row.DEF_RATING)
  let matchup_component := raw_diff_post * pace_multiplier
  let fair_line := matchup_component + hca + rest_adj - h_tax + a_tax + news_factor
  let old_matchup := raw_diff_pre * pace_multiplier
  let old_fair_line := old_matchup + old_hca + rest_adj - h_tax + a_tax + news_factor
  let edge := market_line.map (fun m => |fair_line - m|)
  let old_edge := market_line.map (fun m => |old_fair_line - m|)
  { home := h_team
    away := a_team
    h_tax := h_tax
    a_tax := a_tax
    star_tax_failed := star_tax_failed
    news_factor := news_factor
    rest_adj := rest_adj
    hca := hca
    old_hca := old_hca
    fair_line := round2 fair_line
    old_fair_line := round2 old_fair_line
    market_line := market_line
    edge := edge.map round2
    old_edge := old_edge.map round2
    q_players := ((h_injuries ++ a_injuries).filter
      (fun p => strContains p.status "questionable")).map (·.name) }

/-- `decompose_edge(away_team, home_team, market_line)`: same resolution flow
as `predict_nba_spread` but with `edge_analyzer.py`'s own `SHORT_TO_FULL`
table; raises `Team not found: {away} or {home}` on lookup failure. -/
def decompose_edge (env : Env) (fz : FuzzyMatcher)
    (away_team home_team : String) (market_line : Option ℚ) :
    Except String DecompResult :=
  let team_names := teamNames env
  let h_team := fuzzy_team_match SHORT_TO_FULL fz home_team team_names
  let a_team := fuzzy_team_match SHORT_TO_FULL fz away_team team_names
  match findRow env.ratings h_team, findRow env.ratings a_team with
  | some h_row, some a_row =>
    Except.ok (mkDecomp env away_team home_team h_team a_team h_row a_row market_line)
  | _, _ =>
    Except.error ("Team not found: " ++ away_team ++ " or " ++ home_team)

/-- Extract the fair line of a decomposition, if it succeeded. -/
def decompFairLineOf (e : Except String DecompResult) : Option ℚ :=
  match e with
  | .ok d => some d.fair_line
  | .error _ => none

/-! ## Edge & stake calculator (`nba_engine_ui.py`) -/

/-- `DEFAULT_EDGE_CAP` from `nba_engine_ui.py`. -/
def DEFAULT_EDGE_CAP : ℚ := 10

/-- `calculate_kelly(market, fair_line)` (`nba_engine_ui.py` lines 22-27):
bounded quarter-Kelly on the uncapped edge `|fair_line − market|`. -/
def calculate_kelly (market fair_line : ℚ) : ℚ :=
  let b : ℚ := 0.91
  let edge := |fair_line - market|
  let prob := min 0.70 (max 0.48 (0.524 + edge * 0.015))
  let kelly_f := (b * prob - (1 - prob)) / b
  round2 (max 0 (kelly_f * 0.25) * 100)

/-- The pick recommendation computed at bet-placement time
(`nba_engine_ui.py` line 1219): `home if fair_line < market else away`. -/
def ui_recommendation (fair_line market : ℚ) (away home : String) : String :=
  if fair_line < market then home else away

/-- The pick recommendation recomputed by `recalc_trackers.recalc_file`
(line 68): `home if fair_line < market else away`. -/
def recalc_recommendation (fair_line market : ℚ) (away home : String) : String :=
  if fair_line < market then home else away

/-! ## Historical consistency validator
(`validate_historical_bets`, `nba_engine_ui.py` lines 318-494) -/

/-- Issue severity. -/
inductive Severity where
  | error
  | warn
  | info
deriving DecidableEq, Repr

/-- Structural model of the validator's f-string messages: each constructor is
one message template together with the values it quotes. -/
inductive IssueMsg where
  | fairNonNumeric (s : String)
  | marketNonNumeric (s : String)
  | rawEdgeMismatch (recorded expected : ℚ)
  | edgeMismatch (recorded expected expectedRaw : ℚ)
  | kellyDrift (recorded expected : ℚ)
  | kellyUnparseable (s : String)
  | pickNotInTeams (pick away home : String)
  | pickDiffersFromModel (pick expectedRec : String)
  | edgeCappedButBelowCap (rawEdge cap : ℚ)
  | edgeNotCappedButAboveCap (rawEdge cap : ℚ)
  | noPreflightStamp
  | historicalNoValidation
deriving DecidableEq, Repr

/-- Outcome of `float(field)` on one recorded CSV cell: empty cell, non-empty
but unparseable text, or a parsed number. -/
inductive FieldVal where
  | blank
  | malformed (s : String)
  | num (q : ℚ)
deriving DecidableEq, Repr

/-- One recorded bet-tracker row, with the cells the validator reads.
`kelly` is the `Kelly` cell after `rstrip('%')`. -/
structure BetRow where
  fair : FieldVal
  market : FieldVal
  edge : FieldVal
  raw_edge : FieldVal
  edge_capped : String
  kelly : FieldVal
  pick : String
  away : String
  home : String
  result : String
  preflight : String
  preflight_note : String
deriving DecidableEq, Repr

/-- Numeric value of a field, when it parsed. -/
def FieldVal.toNum : FieldVal → Option ℚ
  | .num q => some q
  | _ => none

/-- Checks 6 of the validator (preflight provenance), appended for every
record. -/
def preflightIssues (r : BetRow) : List (Severity × IssueMsg) :=
  if r.preflight = "" && r.preflight_note = "" then
    [(.warn, .noPreflightStamp)]
  else if r.preflight_note ≠ "" && strContains r.preflight_note "Historical" then
    [(.info, .historicalNoValidation)]
  else []

/-- Check 1 of the validator: non-empty, non-numeric `Fair`/`Market` cells
produce ERROR findings. -/
def parseIssues (r : BetRow) : List (Severity × IssueMsg) :=
  (match r.fair with
    | .malformed s => [(.error, .fairNonNumeric s)]
    | _ => []) ++
  (match r.market with
    | .malformed s => [(.error, .marketNonNumeric s)]
    | _ => [])

/-- Check 2a: recorded `Raw_Edge` must equal `round(|Fair − Market|, 2)`
within 0.05 (lines 417-424; an unparseable cell is silently skipped). -/
def rawEdgeIssues (r : BetRow) (fair market : ℚ) : List (Severity × IssueMsg) :=
  let expected_raw_edge := round2 |fair - market|
  match r.raw_edge with
  | .num raw_edge_val =>
    if |raw_edge_val - expected_raw_edge| > 0.05 then
      [(.error, .rawEdgeMismatch raw_edge_val expected_raw_edge)]
    else []
  | _ => []

/-- Check 2b: recorded `Edge` must be within 0.05 of the capped expected edge,
or failing that of the uncapped raw edge (a different cap may have applied at
record time), else ERROR (lines 426-431). -/
def edgeIssues (EDGE_CAP : ℚ) (r : BetRow) (fair market : ℚ) :
    List (Severity × IssueMsg) :=
  let expected_raw_edge := round2 |fair - market|
  let expected_edge := min expected_raw_edge EDGE_CAP
  match r.edge.toNum with
  | some edge_recorded =>
    if |edge_recorded - expected_edge| > 0.05 then
      if |edge_recorded - expected_raw_edge| > 0.05 then
        [(.error, .edgeMismatch edge_recorded expected_edge expected_raw_edge)]
      else []
    else []
  | none => []

/-- Check 3: recorded Kelly versus Kelly recomputed from a synthetic
"capped fair" line whenever the effective edge sits below the raw edge
(lines 433-450). -/
def kellyIssues (EDGE_CAP : ℚ) (r : BetRow) (fair market : ℚ) :
    List (Severity × IssueMsg) :=
  let expected_raw_edge := round2 |fair - market|
  let expected_edge := min expected_raw_edge EDGE_CAP
  match r.kelly with
  | .blank => []
  | .malformed s => [(.warn, .kellyUnparseable s)]
  | .num kelly_recorded =>
    let effective_edge := (r.edge.toNum).getD expected_edge
    let capped_fair :=
      if effective_edge < expected_raw_edge then
        if fair > market then market + effective_edge
        else market - effective_edge
      else fair
    let expected_kelly := calculate_kelly market capped_fair
    if |kelly_recorded - expected_kelly| > 0.1 then
      [(.warn, .kellyDrift kelly_recorded expected_kelly)]
    else []

/-- Checks 4: the pick must be one of the two teams (ERROR), and a pick that
deviates from the model's deterministic recommendation is an INFO-level
user-override note (lines 452-460). -/
def pickIssues (r : BetRow) (fair market : ℚ) : List (Severity × IssueMsg) :=
  if r.pick ≠ "" && r.pick ≠ r.away && r.pick ≠ r.home then
    [(.error, .pickNotInTeams r.pick r.away r.home)]
  else if r.pick ≠ "" && r.away ≠ "" && r.home ≠ "" then
    let expected_rec := if fair < market then r.home else r.away
    if r.pick ≠ expected_rec then
      [(.info, .pickDiffersFromModel r.pick expected_rec)]
    else []
  else []

/-- Check 5: `Edge_Capped` flag consistency with the raw edge and the current
cap (lines 462-467). -/
def capIssues (EDGE_CAP : ℚ) (r : BetRow) (fair market : ℚ) :
    List (Severity × IssueMsg) :=
  let expected_raw_edge := round2 |fair - market|
  if r.edge_capped ≠ "" then
    if strUpper r.edge_capped = "YES" && expected_raw_edge ≤ EDGE_CAP then
      [(.warn, .edgeCappedButBelowCap expected_raw_edge EDGE_CAP)]
    else if strUpper r.edge_capped = "NO" && expected_raw_edge > EDGE_CAP then
      [(.warn, .edgeNotCappedButAboveCap expected_raw_edge EDGE_CAP)]
    else []
  else []

/-- The per-record issue list accumulated by `validate_historical_bets`
(lines 393-492): every check is evaluated, findings are appended in order,
nothing raises.  The numeric checks only run once both `Fair` and `Market`
parsed.  `EDGE_CAP` is the currently configured cap. -/
def rowIssues (EDGE_CAP : ℚ) (r : BetRow) : List (Severity × IssueMsg) :=
  match r.fair.toNum, r.market.toNum with
  | some fair, some market =>
    parseIssues r ++ rawEdgeIssues r fair market ++ edgeIssues EDGE_CAP r fair market
      ++ kellyIssues EDGE_CAP r fair market ++ pickIssues r fair market
      ++ capIssues EDGE_CAP r fair market ++ preflightIssues r
  | _, _ => parseIssues r ++ preflightIssues r

/-- The tracker row written by the bet-placement flow of `run_ui`
(`nba_engine_ui.py` lines 1182-1250 together with `log_bet`): Edge is capped,
Raw_Edge is uncapped, and Kelly is computed from the *uncapped* fair line. -/
def uiLogRow (fair_line market EDGE_CAP : ℚ) (away home : String) : BetRow :=
  let raw_edge := round2 |fair_line - market|
  let edge := min raw_edge EDGE_CAP
  let edge_capped := raw_edge > EDGE_CAP
  let kelly := calculate_kelly market fair_line
  { fair := .num fair_line
    market := .num market
    edge := .num edge
    raw_edge := .num raw_edge
    edge_capped := if edge_capped then "YES" else "NO"
    kelly := .num kelly
    pick := ui_recommendation fair_line market away home
    away := away
    home := home
    result := "PENDING"
    preflight := ""
    preflight_note := "" }

/-! ## Characterization lemmas -/

theorem predict_nba_spread_found (env : Env) (fz : FuzzyMatcher)
    (away_team home_team : String) (h_row a_row : TeamRow)
    (hh : findRow env.ratings
      (fuzzy_team_match short_to_full_analytics fz home_team (teamNames env)) = some h_row)
    (ha : findRow env.ratings
      (fuzzy_team_match short_to_full_analytics fz away_team (teamNames env)) = some a_row) :
    predict_nba_spread env fz away_team home_team =
      Except.ok (mkPredict env away_team home_team
        (fuzzy_team_match short_to_full_analytics fz home_team (teamNames env))
        (fuzzy_team_match short_to_full_analytics fz away_team (teamNames env))
        h_row a_row) := by
  unfold predict_nba_spread
  dsimp only
  rw [hh, ha]

theorem decompose_edge_found (env : Env) (fz : FuzzyMatcher)
    (away_team home_team : String) (market_line : Option ℚ) (h_row a_row : TeamRow)
    (hh : findRow env.ratings
      (fuzzy_team_match SHORT_TO_FULL fz home_team (teamNames env)) = some h_row)
    (ha : findRow env.ratings
      (fuzzy_team_match SHORT_TO_FULL fz away_team (teamNames env)) = some a_row) :
    decompose_edge env fz away_team home_team market_line =
      Except.ok (mkDecomp env away_team home_team
        (fuzzy_team_match SHORT_TO_FULL fz home_team (teamNames env))
        (fuzzy_team_match SHORT_TO_FULL fz away_team (teamNames env))
        h_row a_row market_line) := by
  unfold decompose_edge
  dsimp only
  rw [hh, ha]

theorem predict_nba_spread_home_not_found (env : Env) (fz : FuzzyMatcher)
    (away_team home_team : String)
    (hh : findRow env.ratings
      (fuzzy_team_match short_to_full_analytics fz home_team (teamNames env)) = none) :
    predict_nba_spread env fz away_team home_team =
      Except.error ("Fuzzy match failed for " ++ away_team ++ " or " ++ home_team) := by
  unfold predict_nba_spread
  dsimp only
  rw [hh]

theorem predict_nba_spread_away_not_found (env : Env) (fz : FuzzyMatcher)
    (away_team home_team : String)
    (ha : findRow env.ratings
      (fuzzy_team_match short_to_full_analytics fz away_team (teamNames env)) = none) :
    predict_nba_spread env fz away_team home_team =
      Except.error ("Fuzzy match failed for " ++ away_team ++ " or " ++ home_team) := by
  unfold predict_nba_spread
  dsimp only
  rw [ha]
  rcases findRow env.ratings
    (fuzzy_team_match short_to_full_analytics fz home_team (teamNames env)) <;> rfl

theorem decompose_edge_home_not_found (env : Env) (fz : FuzzyMatcher)
    (away_team home_team : String) (market_line : Option ℚ)
    (hh : findRow env.ratings
      (fuzzy_team_match SHORT_TO_FULL fz home_team (teamNames env)) = none) :
    decompose_edge env fz away_team home_team market_line =
      Except.error ("Team not found: " ++ away_team ++ " or " ++ home_team) := by
  unfold decompose_edge
  dsimp only
  rw [hh]

theorem decompose_edge_away_not_found (env : Env) (fz : FuzzyMatcher)
    (away_team home_team : String) (market_line : Option ℚ)
    (ha : findRow env.ratings
      (fuzzy_team_match SHORT_TO_FULL fz away_team (teamNames env)) = none) :
    decompose_edge env fz away_team home_team market_line =
      Except.error ("Team not found: " ++ away_team ++ " or " ++ home_team) := by
  unfold decompose_edge
  dsimp only
  rw [ha]
  rcases findRow env.ratings
    (fuzzy_team_match SHORT_TO_FULL fz home_team (teamNames env)) <;> rfl

/-! ## Concrete test fixtures -/

/-- A fuzzy matcher reporting no candidate at the similarity cutoff (what
`difflib.get_close_matches(..., cutoff=0.7)` returns on every lookup these
fixtures perform). -/
def noFuzzy : FuzzyMatcher := fun _ _ => none

/-- The home rating row of the spec's worked example (§8): off=118, def=112,
pace=100. -/
def exampleHomeRow : TeamRow :=
  { team_id := 1, name := "Home Team", OFF_RATING := 118, DEF_RATING := 112,
    NET_RATING := 6, PACE := 100 }

/-- The away rating row of the spec's worked example (§8): off=114, def=116,
pace=98. -/
def exampleAwayRow : TeamRow :=
  { team_id := 2, name := "Away Team", OFF_RATING := 114, DEF_RATING := 116,
    NET_RATING := -2, PACE := 98 }

/-- The two rating rows of the spec's worked example. -/
def exampleRatings : List TeamRow := [exampleHomeRow, exampleAwayRow]

/-- The spec's worked-example snapshot: the two rating rows above with zero
rest/injury/news adjustments and a populated (empty) star-tax cache. -/
def exampleEnv : Env :=
  { ratings := exampleRatings
    injuries := []
    restCache := []
    news := []
    starTax := some ⟨[]⟩
    today := "Jan 01" }

/-! ## Claims -/

/-- The spec's worked example evaluates to a fair line of exactly 3.00: the
pre-regression differential `(118−116)−(114−112)` is 0, regression is linear,
so the matchup component vanishes and only the flat HCA remains. -/
theorem exampleEnv_fair_line :
    fairLineOf (predict_nba_spread exampleEnv noFuzzy "Away Team" "Home Team")
      = some 3 := by
  rw [predict_nba_spread_found exampleEnv noFuzzy "Away Team" "Home Team"
      exampleHomeRow exampleAwayRow rfl rfl]
  show some _ = some 3
  congr 1
  simp only [mkPredict]
  rw [show get_rest_penalty exampleEnv exampleHomeRow.team_id = 0 from rfl,
      show get_rest_penalty exampleEnv exampleAwayRow.team_id = 0 from rfl,
      show get_star_tax_weighted exampleEnv.starTax exampleHomeRow.team_id
        ((exampleEnv.injuries.lookup exampleHomeRow.name).getD []) = some 0 from rfl,
      show get_star_tax_weighted exampleEnv.starTax exampleAwayRow.team_id
        ((exampleEnv.injuries.lookup exampleAwayRow.name).getD []) = some 0 from rfl,
      show news_factor_for (matchupKeywords
        (fuzzy_team_match short_to_full_analytics noFuzzy "Home Team" (teamNames exampleEnv))
        (fuzzy_team_match short_to_full_analytics noFuzzy "Away Team" (teamNames exampleEnv))
        "Home Team" "Away Team") exampleEnv.news = 0 from rfl]
  rw [show exampleHomeRow.OFF_RATING = 118 from rfl,
      show exampleHomeRow.DEF_RATING = 112 from rfl,
      show exampleHomeRow.PACE = 100 from rfl,
      show exampleAwayRow.OFF_RATING = 114 from rfl,
      show exampleAwayRow.DEF_RATING = 116 from rfl,
      show exampleAwayRow.PACE = 98 from rfl]
  norm_num [REGRESS_FACTOR, LEAGUE_BASELINE_OFF_RATING, LEAGUE_BASELINE_DEF_RATING,
    round2, pyRound]

/-- C1 (amended): for every matchup whose two teams resolve to rating rows,
the fair line returned by `predict_nba_spread` equals
`((h_off' − a_def') − (a_off' − h_def')) × ((h_pace + a_pace)/2)/100 + 3.0
 + (h_rest − a_rest) − h_tax + a_tax + news_factor` rounded to 2 decimals,
where `x' = 0.75·x + 0.25·115.5` and each unavailable star tax counts as 0;
and on the spec's worked example (home 118/112 pace 100, away 114/116 pace 98,
zero adjustments) the fair line is 3.00 (not 3.25: the example's raw
differential is exactly 0). -/
theorem predict_fair_line_formula :
    (∀ (env : Env) (fz : FuzzyMatcher) (away_team home_team : String)
        (h_row a_row : TeamRow) (r : PredictResult),
      findRow env.ratings (fuzzy_team_match short_to_full_analytics fz home_team
        (teamNames env)) = some h_row →
      findRow env.ratings (fuzzy_team_match short_to_full_analytics fz away_team
        (teamNames env)) = some a_row →
      predict_nba_spread env fz away_team home_team = Except.ok r →
      r.fairLine = round2
        ((((0.75 * h_row.OFF_RATING + 0.25 * 115.5)
              - (0.75 * a_row.DEF_RATING + 0.25 * 115.5))
            - ((0.75 * a_row.OFF_RATING + 0.25 * 115.5)
              - (0.75 * h_row.DEF_RATING + 0.25 * 115.5)))
          * ((h_row.PACE + a_row.PACE) / 2) / 100
          + 3.0
          + (get_rest_penalty env h_row.team_id - get_rest_penalty env a_row.team_id)
          - (get_star_tax_weighted env.starTax h_row.team_id
              ((env.injuries.lookup h_row.name).getD [])).getD 0
          + (get_star_tax_weighted env.starTax a_row.team_id
              ((env.injuries.lookup a_row.name).getD [])).getD 0
          + news_factor_for (matchupKeywords
              (fuzzy_team_match short_to_full_analytics fz home_team (teamNames env))
              (fuzzy_team_match short_to_full_analytics fz away_team (teamNames env))
              home_team away_team) env.news))
    ∧ fairLineOf (predict_nba_spread exampleEnv noFuzzy "Away Team" "Home Team")
        = some 3 := by
  constructor
  · intro env fz away_team home_team h_row a_row r hh ha hr
    rw [predict_nba_spread_found env fz away_team home_team h_row a_row hh ha] at hr
    injection hr with hr
    subst hr
    simp only [mkPredict]
    congr 1
    simp only [REGRESS_FACTOR, LEAGUE_BASELINE_OFF_RATING, LEAGUE_BASELINE_DEF_RATING]
    ring
  · exact exampleEnv_fair_line

/-- Witness for C1: the formula instantiated on the worked example. -/
theorem predict_fair_line_formula_witness :
    (mkPredict exampleEnv "Away Team" "Home Team" "Home Team" "Away Team"
        exampleHomeRow exampleAwayRow).fairLine = round2
      ((((0.75 * exampleHomeRow.OFF_RATING + 0.25 * 115.5)
            - (0.75 * exampleAwayRow.DEF_RATING + 0.25 * 115.5))
          - ((0.75 * exampleAwayRow.OFF_RATING + 0.25 * 115.5)
            - (0.75 * exampleHomeRow.DEF_RATING + 0.25 * 115.5)))
        * ((exampleHomeRow.PACE + exampleAwayRow.PACE) / 2) / 100
        + 3.0
        + (get_rest_penalty exampleEnv exampleHomeRow.team_id
            - get_rest_penalty exampleEnv exampleAwayRow.team_id)
        - (get_star_tax_weighted exampleEnv.starTax exampleHomeRow.team_id
            ((exampleEnv.injuries.lookup exampleHomeRow.name).getD [])).getD 0
        + (get_star_tax_weighted exampleEnv.starTax exampleAwayRow.team_id
            ((exampleEnv.injuries.lookup exampleAwayRow.name).getD [])).getD 0
        + news_factor_for (matchupKeywords
            (fuzzy_team_match short_to_full_analytics noFuzzy "Home Team"
              (teamNames exampleEnv))
            (fuzzy_team_match short_to_full_analytics noFuzzy "Away Team"
              (teamNames exampleEnv))
            "Home Team" "Away Team") exampleEnv.news) :=
  predict_fair_line_formula.1 exampleEnv noFuzzy "Away Team" "Home Team"
    exampleHomeRow exampleAwayRow _ rfl rfl
    (predict_nba_spread_found exampleEnv noFuzzy "Away Team" "Home Team"
      exampleHomeRow exampleAwayRow rfl rfl)

/-- Counterexample for C1 as stated: on the spec's own worked example the fair
line is 3.00, not 3.25. -/
theorem predict_fair_line_example_counterexample :
    fairLineOf (predict_nba_spread exampleEnv noFuzzy "Away Team" "Home Team")
        = some 3
    ∧ (3 : ℚ) ≠ 3.25 :=
  ⟨exampleEnv_fair_line, by norm_num⟩

/-- C3: for every market line and fair line, `calculate_kelly` returns
`round(max(0, 0.25·((0.91·p − (1−p))/0.91))·100, 2)` with
`p = min(0.70, max(0.48, 0.524 + 0.015·|fair_line − market|))`; the result is
always between 0 and 25, and is monotonically non-decreasing in
`|fair_line − market|`. -/
theorem calculate_kelly_formula_bounds_mono :
    (∀ market fair_line : ℚ,
      calculate_kelly market fair_line =
        round2 (max 0 (0.25 *
          ((0.91 * min 0.70 (max 0.48 (0.524 + 0.015 * |fair_line - market|))
              - (1 - min 0.70 (max 0.48 (0.524 + 0.015 * |fair_line - market|))))
            / 0.91)) * 100))
    ∧ (∀ market fair_line : ℚ,
        0 ≤ calculate_kelly market fair_line ∧ calculate_kelly market fair_line ≤ 25)
    ∧ (∀ m f m' f' : ℚ, |f - m| ≤ |f' - m'| →
        calculate_kelly m f ≤ calculate_kelly m' f') := by
  refine ⟨?_, ?_, ?_⟩
  · intro market fair_line
    unfold calculate_kelly
    dsimp only
    ring_nf
  · intro market fair_line
    constructor
    · unfold calculate_kelly
      dsimp only
      exact round2_nonneg (mul_nonneg (le_max_left 0 _) (by norm_num))
    · unfold calculate_kelly
      dsimp only
      have hp : min (0.70 : ℚ)
          (max 0.48 (0.524 + |fair_line - market| * 0.015)) ≤ 0.70 :=
        min_le_left _ _
      have harg :
          max 0 ((0.91 * min (0.70 : ℚ)
              (max 0.48 (0.524 + |fair_line - market| * 0.015))
            - (1 - min (0.70 : ℚ)
              (max 0.48 (0.524 + |fair_line - market| * 0.015)))) / 0.91 * 0.25)
            * 100
          ≤ max 0 (((0.91 * 0.70 - (1 - 0.70)) / 0.91) * 0.25) * 100 := by
        have hnum : (0.91 * min (0.70 : ℚ)
              (max 0.48 (0.524 + |fair_line - market| * 0.015))
            - (1 - min (0.70 : ℚ)
              (max 0.48 (0.524 + |fair_line - market| * 0.015)))) / 0.91 * 0.25
            ≤ ((0.91 * 0.70 - (1 - 0.70)) / 0.91) * 0.25 := by
          have : (0.91 * min (0.70 : ℚ)
              (max 0.48 (0.524 + |fair_line - market| * 0.015))
            - (1 - min (0.70 : ℚ)
              (max 0.48 (0.524 + |fair_line - market| * 0.015))))
              ≤ 0.91 * 0.70 - (1 - 0.70) := by linarith
          have hdiv := (div_le_div_iff_of_pos_right (c := (0.91 : ℚ))
            (by norm_num)).mpr this
          linarith
        exact mul_le_mul_of_nonneg_right
          (max_le_max le_rfl hnum) (by norm_num)
      refine le_trans (round2_mono harg) ?_
      rw [max_eq_right (by norm_num : (0 : ℚ) ≤ ((0.91 * 0.70 - (1 - 0.70)) / 0.91) * 0.25)]
      norm_num [round2, pyRound]
  · intro m f m' f' h
    unfold calculate_kelly
    dsimp only
    apply round2_mono
    have hp : min (0.70 : ℚ) (max 0.48 (0.524 + |f - m| * 0.015))
        ≤ min (0.70 : ℚ) (max 0.48 (0.524 + |f' - m'| * 0.015)) := by
      refine min_le_min le_rfl (max_le_max le_rfl ?_)
      nlinarith
    have hnum : (0.91 * min (0.70 : ℚ) (max 0.48 (0.524 + |f - m| * 0.015))
          - (1 - min (0.70 : ℚ) (max 0.48 (0.524 + |f - m| * 0.015)))) / 0.91 * 0.25
        ≤ (0.91 * min (0.70 : ℚ) (max 0.48 (0.524 + |f' - m'| * 0.015))
          - (1 - min (0.70 : ℚ) (max 0.48 (0.524 + |f' - m'| * 0.015)))) / 0.91 * 0.25 := by
      have : (0.91 * min (0.70 : ℚ) (max 0.48 (0.524 + |f - m| * 0.015))
          - (1 - min (0.70 : ℚ) (max 0.48 (0.524 + |f - m| * 0.015))))
          ≤ (0.91 * min (0.70 : ℚ) (max 0.48 (0.524 + |f' - m'| * 0.015))
          - (1 - min (0.70 : ℚ) (max 0.48 (0.524 + |f' - m'| * 0.015)))) := by linarith
      have hdiv := (div_le_div_iff_of_pos_right (c := (0.91 : ℚ))
        (by norm_num)).mpr this
      linarith
    exact mul_le_mul_of_nonneg_right (max_le_max le_rfl hnum) (by norm_num)

/-- Witness for C3: the monotonicity hypothesis is satisfiable, e.g. the Kelly
percentage at edge 0 is at most the one at edge 2. -/
theorem calculate_kelly_formula_bounds_mono_witness :
    |(0 : ℚ) - 0| ≤ |(2 : ℚ) - 0| ∧ calculate_kelly 0 0 ≤ calculate_kelly 0 2 :=
  ⟨by norm_num, calculate_kelly_formula_bounds_mono.2.2 0 0 0 2 (by norm_num)⟩

/-! ### Star-tax claims (C6, C7) -/

theorem statusWeight_nonneg (s : String) : 0 ≤ statusWeight s := by
  unfold statusWeight
  dsimp only
  split_ifs <;> norm_num

/-- The hyphenated spelling "game-time-decision" matches none of the keys of
the `weights` dict (the code's key is space-separated), so it gets weight 0. -/
theorem statusWeight_gtd_hyphen : statusWeight "game-time-decision" = 0 := rfl

/-- One summand of the star-tax total equals the looked-up impact (0 when the
player is not cached) times the status weight: a zero weight contributes 0
either way. -/
theorem star_tax_term_eq (entry : StarTaxTeam) (p : InjuryPlayer) :
    (if statusWeight p.status ≤ 0 then 0
     else match entry.players.lookup (strLower p.name) with
       | some pm => pm * statusWeight p.status
       | none => 0)
    = ((entry.players.lookup (strLower p.name)).getD 0) * statusWeight p.status := by
  rcases h : entry.players.lookup (strLower p.name) with _ | pm
  · simp [h]
  · simp only [h, Option.getD_some]
    split_ifs with hw
    · have h0 : statusWeight p.status = 0 := le_antisymm hw (statusWeight_nonneg _)
      rw [h0, mul_zero]
    · rfl

/-- C6 (amended): for every team with a non-empty injured-player list,
`get_star_tax_weighted` returns the `None` sentinel (never 0) whenever the
star-tax cache file is absent or the team's cache entry failed to populate
(empty player map with the error marker); and in `predict_nba_spread`, when
either side's lookup returns `None`, the returned `star_tax_failed` flag is
true while that side's numeric contribution to the fair line is exactly 0.
(With an *empty* injured list the resolver returns 0 before consulting the
cache — see the counterexample.) -/
theorem star_tax_sentinel_propagation :
    (∀ (team_id : Nat) (ps : List InjuryPlayer), ps ≠ [] →
      get_star_tax_weighted none team_id ps = none)
    ∧ (∀ (c : StarTaxCache) (team_id : Nat) (entry : StarTaxTeam)
        (ps : List InjuryPlayer),
        ps ≠ [] → c.teams.lookup team_id = some entry →
        entry.players = [] → entry.hasError = true →
        get_star_tax_weighted (some c) team_id ps = none)
    ∧ (∀ (env : Env) (fz : FuzzyMatcher) (away_team home_team : String)
        (h_row a_row : TeamRow) (r : PredictResult),
        findRow env.ratings (fuzzy_team_match short_to_full_analytics fz home_team
          (teamNames env)) = some h_row →
        findRow env.ratings (fuzzy_team_match short_to_full_analytics fz away_team
          (teamNames env)) = some a_row →
        predict_nba_spread env fz away_team home_team = Except.ok r →
        r.starTaxFailed =
          ((get_star_tax_weighted env.starTax h_row.team_id
              ((env.injuries.lookup h_row.name).getD [])).isNone
            || (get_star_tax_weighted env.starTax a_row.team_id
              ((env.injuries.lookup a_row.name).getD [])).isNone)
        ∧ r.fairLine = round2
            ((((h_row.OFF_RATING * REGRESS_FACTOR
                  + LEAGUE_BASELINE_OFF_RATING * (1 - REGRESS_FACTOR))
                - (a_row.DEF_RATING * REGRESS_FACTOR
                  + LEAGUE_BASELINE_DEF_RATING * (1 - REGRESS_FACTOR)))
              - ((a_row.OFF_RATING * REGRESS_FACTOR
                  + LEAGUE_BASELINE_OFF_RATING * (1 - REGRESS_FACTOR))
                - (h_row.DEF_RATING * REGRESS_FACTOR
                  + LEAGUE_BASELINE_DEF_RATING * (1 - REGRESS_FACTOR))))
              * ((h_row.PACE + a_row.PACE) / 2 / 100)
              + 3.0
              + (get_rest_penalty env h_row.team_id - get_rest_penalty env a_row.team_id)
              - (get_star_tax_weighted env.starTax h_row.team_id
                  ((env.injuries.lookup h_row.name).getD [])).getD 0
              + (get_star_tax_weighted env.starTax a_row.team_id
                  ((env.injuries.lookup a_row.name).getD [])).getD 0
              + news_factor_for (matchupKeywords
                  (fuzzy_team_match short_to_full_analytics fz home_team (teamNames env))
                  (fuzzy_team_match short_to_full_analytics fz away_team (teamNames env))
                  home_team away_team) env.news)) := by
  refine ⟨?_, ?_, ?_⟩
  · intro team_id ps hps
    unfold get_star_tax_weighted
    rw [if_neg (by simp [hps])]
  · intro c team_id entry ps hps hlk hpl herr
    unfold get_star_tax_weighted
    rw [if_neg (by simp [hps])]
    dsimp only
    rw [hlk]
    simp [hpl, herr]
  · intro env fz away_team home_team h_row a_row r hh ha hr
    rw [predict_nba_spread_found env fz away_team home_team h_row a_row hh ha] at hr
    injection hr with hr
    subst hr
    exact ⟨by simp only [mkPredict], by simp only [mkPredict]⟩

/-- Witness for C6: an absent cache with one listed "Out" player yields the
sentinel. -/
theorem star_tax_sentinel_propagation_witness :
    ([({ name := "star player", position := "F", date := "", status := "Out",
         note := "" } : InjuryPlayer)] ≠ ([] : List InjuryPlayer))
    ∧ get_star_tax_weighted none 7
        [{ name := "star player", position := "F", date := "", status := "Out",
           note := "" }] = none :=
  ⟨by simp, star_tax_sentinel_propagation.1 7 _ (by simp)⟩

/-- Counterexample for C6 as stated: with an *empty* injured list and an
absent cache file, `get_star_tax_weighted` returns 0, not the `None`
sentinel (`if not out_players: return 0` runs before the cache check). -/
theorem star_tax_absent_cache_counterexample :
    get_star_tax_weighted none 7 [] = some 0
    ∧ (some (0 : ℚ) : Option ℚ) ≠ none :=
  ⟨rfl, by simp⟩

/-- The cached team entry used by the C7 witness and counterexample: one
player ("john star") with on/off impact 4 and no error marker. -/
def gtdEntry : StarTaxTeam := ⟨[("john star", 4)], false⟩

/-- The star-tax cache used by the C7 witness and counterexample. -/
def gtdCache : StarTaxCache := ⟨[(7, gtdEntry)]⟩

/-- A "Doubtful" injured player used by the C7 witness. -/
def doubtfulPlayer : InjuryPlayer :=
  { name := "John Star", position := "G", date := "", status := "Doubtful",
    note := "" }

/-- The injured player of the C7 counterexample, listed with the hyphenated
status spelling. -/
def gtdPlayer : InjuryPlayer :=
  { name := "John Star", position := "G", date := "", status := "game-time-decision",
    note := "knee" }

/-- C7 (amended): for a non-empty injured list and a populated team entry,
`get_star_tax_weighted` returns `round(S/2, 2)` where `S` sums each player's
cached on/off differential times a severity weight keyed by substring of the
lowercased status: out=1.0, doubtful=0.9, questionable=0.5,
"game time decision" (space-separated, as the code's key is spelled)=0.5,
day-to-day=0.5, probable=0.1; an unrecognized status — including the
hyphenated spelling "game-time-decision" — gets weight 0 and contributes
nothing, and no malformed status makes the resolver raise. -/
theorem star_tax_weighted_sum_formula :
    (∀ (c : StarTaxCache) (team_id : Nat) (entry : StarTaxTeam)
        (ps : List InjuryPlayer),
      ps ≠ [] → c.teams.lookup team_id = some entry → entry.players ≠ [] →
      get_star_tax_weighted (some c) team_id ps =
        some (round2 ((ps.map (fun p =>
          ((entry.players.lookup (strLower p.name)).getD 0)
            * statusWeight p.status)).sum / 2)))
    ∧ statusWeight "out" = 1.0 ∧ statusWeight "doubtful" = 0.9
    ∧ statusWeight "questionable" = 0.5 ∧ statusWeight "game time decision" = 0.5
    ∧ statusWeight "day-to-day" = 0.5 ∧ statusWeight "probable" = 0.1
    ∧ statusWeight "game-time-decision" = 0
    ∧ statusWeight "paperwork issue" = 0 := by
  refine ⟨?_, rfl, rfl, rfl, rfl, rfl, rfl, rfl, rfl⟩
  intro c team_id entry ps hps hlk hpl
  unfold get_star_tax_weighted
  rw [if_neg (by simp [hps])]
  dsimp only
  rw [hlk]
  rw [Option.getD_some, if_neg (by simp [hpl])]
  simp only [star_tax_term_eq]

/-- Witness for C7: the weighted-sum formula on the counterexample cache with
a single "Doubtful" player (impact 4, weight 0.9). -/
theorem star_tax_weighted_sum_formula_witness :
    get_star_tax_weighted (some gtdCache) 7 [doubtfulPlayer] =
      some (round2 (([doubtfulPlayer].map (fun p =>
          ((gtdEntry.players.lookup (strLower p.name)).getD 0)
            * statusWeight p.status)).sum / 2)) :=
  star_tax_weighted_sum_formula.1 gtdCache 7 gtdEntry [doubtfulPlayer]
    (by simp) rfl (by simp [gtdEntry])

/-- Counterexample for C7 as stated: a player whose status is the hyphenated
"game-time-decision" gets weight 0, so the tax is 0, not the
`round((4 × 0.5)/2, 2) = 1.0` the claim's weight table predicts. -/
theorem star_tax_gtd_hyphen_counterexample :
    get_star_tax_weighted (some gtdCache) 7 [gtdPlayer] = some 0
    ∧ (0 : ℚ) ≠ 1 := by
  constructor
  · unfold get_star_tax_weighted
    rw [if_neg (by simp [gtdPlayer])]
    dsimp only
    rw [show gtdCache.teams.lookup 7 = some ⟨[("john star", 4)], false⟩ from rfl]
    rw [Option.getD_some, if_neg (by simp)]
    have hterm : (if statusWeight gtdPlayer.status ≤ 0 then 0
        else match ([("john star", (4:ℚ))].lookup (strLower gtdPlayer.name)) with
          | some pm => pm * statusWeight gtdPlayer.status
          | none => 0) = (0 : ℚ) := by
      rw [if_pos]
      rw [show gtdPlayer.status = "game-time-decision" from rfl, statusWeight_gtd_hyphen]
    simp only [List.map, hterm, List.sum_cons, List.sum_nil]
    norm_num [round2, pyRound]
  · norm_num

/-! ### News-factor claim (C8) -/

/-- Home rating row of the Celtics @ Nets fixture. -/
def netsRow : TeamRow :=
  { team_id := 1610612751, name := "Brooklyn Nets", OFF_RATING := 112,
    DEF_RATING := 108, NET_RATING := 4, PACE := 99 }

/-- Away rating row of the Celtics @ Nets fixture. -/
def celticsRow : TeamRow :=
  { team_id := 1610612738, name := "Boston Celtics", OFF_RATING := 114,
    DEF_RATING := 110, NET_RATING := 4, PACE := 97 }

/-- A news item about an unrelated team's coach being fired. -/
def lakersNewsItem : NewsItem :=
  { title := "Lakers coach fired", summary := "Team announces change" }

/-- Celtics @ Nets snapshot including the unrelated Lakers news item. -/
def newsEnvWith : Env :=
  { ratings := [netsRow, celticsRow]
    injuries := []
    restCache := []
    news := [lakersNewsItem]
    starTax := some ⟨[]⟩
    today := "Jan 01" }

/-- The same snapshot with no news at all. -/
def newsEnvWithout : Env :=
  { ratings := [netsRow, celticsRow]
    injuries := []
    restCache := []
    news := []
    starTax := some ⟨[]⟩
    today := "Jan 01" }

/-- The Celtics @ Nets fair line with the unrelated Lakers item present:
the item passes no keyword gate, so the factor is 0 and the line is 0.06. -/
theorem newsEnvWith_fair_line :
    fairLineOf (predict_nba_spread newsEnvWith noFuzzy "Celtics" "Nets")
      = some 0.06 := by
  rw [predict_nba_spread_found newsEnvWith noFuzzy "Celtics" "Nets"
      netsRow celticsRow rfl rfl]
  show some _ = some _
  congr 1
  simp only [mkPredict]
  have hmention : newsMentions (matchupKeywords
      (fuzzy_team_match short_to_full_analytics noFuzzy "Nets" (teamNames newsEnvWith))
      (fuzzy_team_match short_to_full_analytics noFuzzy "Celtics" (teamNames newsEnvWith))
      "Nets" "Celtics") lakersNewsItem = false := rfl
  have hnf : news_factor_for (matchupKeywords
      (fuzzy_team_match short_to_full_analytics noFuzzy "Nets" (teamNames newsEnvWith))
      (fuzzy_team_match short_to_full_analytics noFuzzy "Celtics" (teamNames newsEnvWith))
      "Nets" "Celtics") newsEnvWith.news = 0 := by
    show ([lakersNewsItem].map (newsContribution _)).sum = 0
    simp [newsContribution, hmention]
  rw [hnf,
      show get_rest_penalty newsEnvWith netsRow.team_id = 0 from rfl,
      show get_rest_penalty newsEnvWith celticsRow.team_id = 0 from rfl,
      show get_star_tax_weighted newsEnvWith.starTax netsRow.team_id
        ((newsEnvWith.injuries.lookup netsRow.name).getD []) = some 0 from rfl,
      show get_star_tax_weighted newsEnvWith.starTax celticsRow.team_id
        ((newsEnvWith.injuries.lookup celticsRow.name).getD []) = some 0 from rfl,
      show netsRow.OFF_RATING = 112 from rfl, show netsRow.DEF_RATING = 108 from rfl,
      show netsRow.PACE = 99 from rfl,
      show celticsRow.OFF_RATING = 114 from rfl,
      show celticsRow.DEF_RATING = 110 from rfl,
      show celticsRow.PACE = 97 from rfl]
  norm_num [REGRESS_FACTOR, LEAGUE_BASELINE_OFF_RATING, LEAGUE_BASELINE_DEF_RATING,
    round2, pyRound]

/-- The Celtics @ Nets fair line with no news at all: also 0.06. -/
theorem newsEnvWithout_fair_line :
    fairLineOf (predict_nba_spread newsEnvWithout noFuzzy "Celtics" "Nets")
      = some 0.06 := by
  rw [predict_nba_spread_found newsEnvWithout noFuzzy "Celtics" "Nets"
      netsRow celticsRow rfl rfl]
  show some _ = some _
  congr 1
  simp only [mkPredict]
  rw [show news_factor_for (matchupKeywords
        (fuzzy_team_match short_to_full_analytics noFuzzy "Nets" (teamNames newsEnvWithout))
        (fuzzy_team_match short_to_full_analytics noFuzzy "Celtics" (teamNames newsEnvWithout))
        "Nets" "Celtics") newsEnvWithout.news = 0 from rfl,
      show get_rest_penalty newsEnvWithout netsRow.team_id = 0 from rfl,
      show get_rest_penalty newsEnvWithout celticsRow.team_id = 0 from rfl,
      show get_star_tax_weighted newsEnvWithout.starTax netsRow.team_id
        ((newsEnvWithout.injuries.lookup netsRow.name).getD []) = some 0 from rfl,
      show get_star_tax_weighted newsEnvWithout.starTax celticsRow.team_id
        ((newsEnvWithout.injuries.lookup celticsRow.name).getD []) = some 0 from rfl,
      show netsRow.OFF_RATING = 112 from rfl, show netsRow.DEF_RATING = 108 from rfl,
      show netsRow.PACE = 99 from rfl,
      show celticsRow.OFF_RATING = 114 from rfl,
      show celticsRow.DEF_RATING = 110 from rfl,
      show celticsRow.PACE = 97 from rfl]
  norm_num [REGRESS_FACTOR, LEAGUE_BASELINE_OFF_RATING, LEAGUE_BASELINE_DEF_RATING,
    round2, pyRound]

/-- C8: the news factor drops 2 per item whose combined title+summary contains
"late scratch" and 1 per item containing "coach fired", additively across
items, but only for items mentioning a matchup keyword; an item mentioning
neither team's name nor nickname contributes exactly 0 — in particular a
"Lakers coach fired" item leaves a Celtics @ Nets fair line unchanged. -/
theorem news_factor_keyword_gate :
    (∀ (kws : List String) (item : NewsItem),
      newsMentions kws item = false → newsContribution kws item = 0)
    ∧ (∀ (kws : List String) (item : NewsItem),
      newsMentions kws item = true →
      newsContribution kws item =
        (if strContains (newsCombined item) "late scratch" then -2 else 0)
          + (if strContains (newsCombined item) "coach fired" then -1 else 0))
    ∧ (∀ (kws : List String) (news : List NewsItem),
      news_factor_for kws news = (news.map (newsContribution kws)).sum)
    ∧ fairLineOf (predict_nba_spread newsEnvWith noFuzzy "Celtics" "Nets")
        = fairLineOf (predict_nba_spread newsEnvWithout noFuzzy "Celtics" "Nets") := by
  refine ⟨?_, ?_, ?_, ?_⟩
  · intro kws item h
    simp [newsContribution, h]
  · intro kws item h
    simp [newsContribution, h]
  · intro kws news
    rfl
  · rw [newsEnvWith_fair_line, newsEnvWithout_fair_line]

/-- Witness for C8: the "Lakers coach fired" item mentions none of the
Celtics/Nets matchup keywords, so its contribution is 0. -/
theorem news_factor_keyword_gate_witness :
    newsMentions (matchupKeywords "Brooklyn Nets" "Boston Celtics" "Nets" "Celtics")
        lakersNewsItem = false
    ∧ newsContribution (matchupKeywords "Brooklyn Nets" "Boston Celtics" "Nets" "Celtics")
        lakersNewsItem = 0 :=
  ⟨rfl, news_factor_keyword_gate.1 _ lakersNewsItem rfl⟩

/-! ### Resolution-failure and refinement claims (C2, C9) -/

/-- Whether a computation succeeded (Python: no exception raised). -/
def isSuccess {α : Type} (e : Except String α) : Bool :=
  match e with
  | .ok _ => true
  | .error _ => false

theorem toList_append (a b : String) : (a ++ b).toList = a.toList ++ b.toList := rfl

theorem strContains_of_data_suffix (msg s : String) (l : List Char)
    (h : msg.toList = l ++ s.toList) : strContains msg s = true := by
  unfold strContains
  rw [h]
  exact containsSubChars_of_suffix _ _

theorem strContains_of_data_middle (msg s : String) (pre post : List Char)
    (h : msg.toList = pre ++ (s.toList ++ post)) : strContains msg s = true := by
  unfold strContains
  rw [h]
  exact containsSubChars_of_middle _ _ _

/-- When exact match, alias table and fuzzy matcher all fail, the input name
is returned unchanged (the deliberate soft-failure). -/
theorem fuzzy_team_match_unresolved (tbl : List (String × String))
    (fz : FuzzyMatcher) (name : String) (team_list : List String)
    (hmem : name ∉ team_list)
    (htbl : ∀ full, tbl.lookup name = some full → full ∉ team_list)
    (hfz : fz name team_list = none) :
    fuzzy_team_match tbl fz name team_list = name := by
  unfold fuzzy_team_match
  rw [if_neg hmem]
  rcases hlk : tbl.lookup name with _ | full
  · dsimp only
    rw [hfz]
  · dsimp only
    rw [if_neg (htbl full hlk), hfz]

/-- A name that is not a rating-table team name has no rating row. -/
theorem findRow_eq_none (env : Env) (nm : String) (h : nm ∉ teamNames env) :
    findRow env.ratings nm = none := by
  unfold findRow
  rw [List.find?_eq_none]
  intro row hrow hname
  exact h (of_decide_eq_true hname ▸ List.mem_map_of_mem (fun r => r.name) hrow)

/-- C9: an input team name with no exact match, no usable alias entry and no
fuzzy match at the cutoff resolves to itself, and the fair-line computation
then fails with a team-not-found error whose message contains both the
requested name and the (identical) resolved name — it never returns a result
from a default rating.  Both the home-side and the away-side failure are
covered, for `predict_nba_spread` and for `decompose_edge`. -/
theorem team_not_found_error (env : Env) (fz : FuzzyMatcher)
    (away_team home_team : String) (market_line : Option ℚ) :
    (home_team ∉ teamNames env →
      (∀ full, short_to_full_analytics.lookup home_team = some full →
        full ∉ teamNames env) →
      (∀ full, SHORT_TO_FULL.lookup home_team = some full → full ∉ teamNames env) →
      fz home_team (teamNames env) = none →
      fuzzy_team_match short_to_full_analytics fz home_team (teamNames env) = home_team
      ∧ fuzzy_team_match SHORT_TO_FULL fz home_team (teamNames env) = home_team
      ∧ predict_nba_spread env fz away_team home_team
          = Except.error ("Fuzzy match failed for " ++ away_team ++ " or " ++ home_team)
      ∧ decompose_edge env fz away_team home_team market_line
          = Except.error ("Team not found: " ++ away_team ++ " or " ++ home_team)
      ∧ strContains ("Fuzzy match failed for " ++ away_team ++ " or " ++ home_team)
          home_team = true
      ∧ strContains ("Fuzzy match failed for " ++ away_team ++ " or " ++ home_team)
          away_team = true
      ∧ strContains ("Team not found: " ++ away_team ++ " or " ++ home_team)
          home_team = true
      ∧ strContains ("Team not found: " ++ away_team ++ " or " ++ home_team)
          away_team = true)
    ∧ (away_team ∉ teamNames env →
      (∀ full, short_to_full_analytics.lookup away_team = some full →
        full ∉ teamNames env) →
      (∀ full, SHORT_TO_FULL.lookup away_team = some full → full ∉ teamNames env) →
      fz away_team (teamNames env) = none →
      fuzzy_team_match short_to_full_analytics fz away_team (teamNames env) = away_team
      ∧ fuzzy_team_match SHORT_TO_FULL fz away_team (teamNames env) = away_team
      ∧ predict_nba_spread env fz away_team home_team
          = Except.error ("Fuzzy match failed for " ++ away_team ++ " or " ++ home_team)
      ∧ decompose_edge env fz away_team home_team market_line
          = Except.error ("Team not found: " ++ away_team ++ " or " ++ home_team)) := by
  constructor
  · intro hmem hNA hEA hfz
    have h1 := fuzzy_team_match_unresolved short_to_full_analytics fz home_team
      (teamNames env) hmem hNA hfz
    have h2 := fuzzy_team_match_unresolved SHORT_TO_FULL fz home_team
      (teamNames env) hmem hEA hfz
    have hfr := findRow_eq_none env home_team hmem
    refine ⟨h1, h2, ?_, ?_, ?_, ?_, ?_, ?_⟩
    · exact predict_nba_spread_home_not_found env fz away_team home_team
        (by rw [h1]; exact hfr)
    · exact decompose_edge_home_not_found env fz away_team home_team market_line
        (by rw [h2]; exact hfr)
    · exact strContains_of_data_suffix _ _
        ("Fuzzy match failed for ".toList ++ (away_team.toList ++ " or ".toList))
        (by simp [toList_append])
    · exact strContains_of_data_middle _ _
        "Fuzzy match failed for ".toList (" or ".toList ++ home_team.toList)
        (by simp [toList_append])
    · exact strContains_of_data_suffix _ _
        ("Team not found: ".toList ++ (away_team.toList ++ " or ".toList))
        (by simp [toList_append])
    · exact strContains_of_data_middle _ _
        "Team not found: ".toList (" or ".toList ++ home_team.toList)
        (by simp [toList_append])
  · intro hmem hNA hEA hfz
    have h1 := fuzzy_team_match_unresolved short_to_full_analytics fz away_team
      (teamNames env) hmem hNA hfz
    have h2 := fuzzy_team_match_unresolved SHORT_TO_FULL fz away_team
      (teamNames env) hmem hEA hfz
    have hfr := findRow_eq_none env away_team hmem
    refine ⟨h1, h2, ?_, ?_⟩
    · exact predict_nba_spread_away_not_found env fz away_team home_team
        (by rw [h1]; exact hfr)
    · exact decompose_edge_away_not_found env fz away_team home_team market_line
        (by rw [h2]; exact hfr)

/-- Witness for C9: the unresolvable name "Gotham Knights" as home team of the
worked-example snapshot aborts `predict_nba_spread` with the team-not-found
error. -/
theorem team_not_found_error_witness :
    ("Gotham Knights" ∉ teamNames exampleEnv)
    ∧ predict_nba_spread exampleEnv noFuzzy "Away Team" "Gotham Knights"
        = Except.error
          ("Fuzzy match failed for " ++ "Away Team" ++ " or " ++ "Gotham Knights") :=
  ⟨by decide,
    ((team_not_found_error exampleEnv noFuzzy "Away Team" "Gotham Knights" none).1
      (by decide)
      (fun full h => by
        rw [show short_to_full_analytics.lookup "Gotham Knights" = none from rfl] at h
        cases h)
      (fun full h => by
        rw [show SHORT_TO_FULL.lookup "Gotham Knights" = none from rfl] at h
        cases h)
      rfl).2.2.1⟩

/-- C2 (amended): whenever the two modules' alias tables resolve both input
names identically (which they do for every input except the nickname
"Clippers"), `decompose_edge` fails exactly when `predict_nba_spread` fails
and otherwise reports exactly the fair line `predict_nba_spread` computes. -/
theorem decompose_edge_refines_predict (env : Env) (fz : FuzzyMatcher)
    (away_team home_team : String) (market_line : Option ℚ)
    (hH : fuzzy_team_match SHORT_TO_FULL fz home_team (teamNames env)
      = fuzzy_team_match short_to_full_analytics fz home_team (teamNames env))
    (hA : fuzzy_team_match SHORT_TO_FULL fz away_team (teamNames env)
      = fuzzy_team_match short_to_full_analytics fz away_team (teamNames env)) :
    isSuccess (decompose_edge env fz away_team home_team market_line)
      = isSuccess (predict_nba_spread env fz away_team home_team)
    ∧ ∀ (d : DecompResult) (r : PredictResult),
        decompose_edge env fz away_team home_team market_line = Except.ok d →
        predict_nba_spread env fz away_team home_team = Except.ok r →
        d.fair_line = r.fairLine := by
  rcases hfh : findRow env.ratings
      (fuzzy_team_match short_to_full_analytics fz home_team (teamNames env))
    with _ | h_row
  · have hp := predict_nba_spread_home_not_found env fz away_team home_team hfh
    have hd := decompose_edge_home_not_found env fz away_team home_team market_line
      (by rw [hH]; exact hfh)
    rw [hp, hd]
    exact ⟨rfl, fun d r hd' _ => by cases hd'⟩
  · rcases hfa : findRow env.ratings
        (fuzzy_team_match short_to_full_analytics fz away_team (teamNames env))
      with _ | a_row
    · have hp := predict_nba_spread_away_not_found env fz away_team home_team hfa
      have hd := decompose_edge_away_not_found env fz away_team home_team market_line
        (by rw [hA]; exact hfa)
      rw [hp, hd]
      exact ⟨rfl, fun d r hd' _ => by cases hd'⟩
    · have hp := predict_nba_spread_found env fz away_team home_team h_row a_row hfh hfa
      have hd := decompose_edge_found env fz away_team home_team market_line h_row a_row
        (by rw [hH]; exact hfh) (by rw [hA]; exact hfa)
      rw [hp, hd]
      refine ⟨rfl, fun d r hd' hr' => ?_⟩
      injection hd' with hd'
      injection hr' with hr'
      subst hd'
      subst hr'
      rw [hH, hA]
      simp only [mkDecomp, mkPredict]

/-- Witness for C2: with the Celtics @ Nets fixture both computations succeed
and report the same fair line. -/
theorem decompose_edge_refines_predict_witness :
    isSuccess (decompose_edge newsEnvWithout noFuzzy "Celtics" "Nets" none)
      = isSuccess (predict_nba_spread newsEnvWithout noFuzzy "Celtics" "Nets") :=
  (decompose_edge_refines_predict newsEnvWithout noFuzzy "Celtics" "Nets" none
    rfl rfl).1

/-- Rating rows of the Clippers counterexample snapshot (names as normalized
by `calculate_pace_and_ratings`, which maps "LA Clippers" to
"Los Angeles Clippers"). -/
def clippersRow : TeamRow :=
  { team_id := 1610612746, name := "Los Angeles Clippers", OFF_RATING := 113,
    DEF_RATING := 109, NET_RATING := 4, PACE := 100 }

/-- The Lakers rating row of the Clippers counterexample snapshot. -/
def lakersRow : TeamRow :=
  { team_id := 1610612747, name := "Los Angeles Lakers", OFF_RATING := 111,
    DEF_RATING := 112, NET_RATING := -1, PACE := 101 }

/-- The Clippers counterexample snapshot. -/
def clippersEnv : Env :=
  { ratings := [clippersRow, lakersRow]
    injuries := []
    restCache := []
    news := []
    starTax := some ⟨[]⟩
    today := "Jan 01" }

/-- Counterexample for C2 as stated: on the same cached snapshot, the away
name "Clippers" succeeds in `predict_nba_spread` (whose alias table maps it to
"Los Angeles Clippers") but `decompose_edge` raises "Team not found" (its
`SHORT_TO_FULL` maps it to "LA Clippers", which is never a normalized rating
name, and `difflib` finds no 0.7-close match). -/
theorem decompose_edge_clippers_counterexample :
    isSuccess (predict_nba_spread clippersEnv noFuzzy "Clippers" "Los Angeles Lakers")
      = true
    ∧ decompose_edge clippersEnv noFuzzy "Clippers" "Los Angeles Lakers" none
        = Except.error ("Team not found: " ++ "Clippers" ++ " or " ++ "Los Angeles Lakers") := by
  constructor
  · rw [predict_nba_spread_found clippersEnv noFuzzy "Clippers" "Los Angeles Lakers"
      lakersRow clippersRow rfl rfl]
    rfl
  · exact decompose_edge_away_not_found clippersEnv noFuzzy "Clippers"
      "Los Angeles Lakers" none rfl

/-! ### Validator claims (C4, C5, C10) -/

theorem pickDiffers_not_mem_parseIssues (r : BetRow) (sev : Severity)
    (p e : String) : (sev, IssueMsg.pickDiffersFromModel p e) ∉ parseIssues r := by
  unfold parseIssues
  rcases r.fair <;> rcases r.market <;> simp

theorem pickDiffers_not_mem_rawEdgeIssues (r : BetRow) (f m : ℚ) (sev : Severity)
    (p e : String) :
    (sev, IssueMsg.pickDiffersFromModel p e) ∉ rawEdgeIssues r f m := by
  intro h
  unfold rawEdgeIssues at h
  rcases hre : r.raw_edge with _ | s | q <;> rw [hre] at h <;> dsimp only at h
  · simp at h
  · simp at h
  · split_ifs at h <;> simp at h

theorem pickDiffers_not_mem_edgeIssues (cap : ℚ) (r : BetRow) (f m : ℚ)
    (sev : Severity) (p e : String) :
    (sev, IssueMsg.pickDiffersFromModel p e) ∉ edgeIssues cap r f m := by
  intro h
  unfold edgeIssues at h
  rcases hre : r.edge.toNum with _ | q <;> rw [hre] at h <;> dsimp only at h
  · simp at h
  · split_ifs at h <;> simp at h

theorem pickDiffers_not_mem_kellyIssues (cap : ℚ) (r : BetRow) (f m : ℚ)
    (sev : Severity) (p e : String) :
    (sev, IssueMsg.pickDiffersFromModel p e) ∉ kellyIssues cap r f m := by
  intro h
  unfold kellyIssues at h
  rcases hre : r.kelly with _ | s | q <;> rw [hre] at h <;> dsimp only at h
  · simp at h
  · simp at h
  · split_ifs at h <;> simp at h

theorem pickDiffers_not_mem_capIssues (cap : ℚ) (r : BetRow) (f m : ℚ)
    (sev : Severity) (p e : String) :
    (sev, IssueMsg.pickDiffersFromModel p e) ∉ capIssues cap r f m := by
  intro h
  unfold capIssues at h
  dsimp only at h
  split at h
  · split at h
    · simp at h
    · split at h
      · simp at h
      · simp at h
  · simp at h

theorem pickDiffers_not_mem_preflightIssues (r : BetRow) (sev : Severity)
    (p e : String) :
    (sev, IssueMsg.pickDiffersFromModel p e) ∉ preflightIssues r := by
  intro h
  unfold preflightIssues at h
  split_ifs at h <;> simp at h

theorem pickIssues_severity (r : BetRow) (f m : ℚ) (sev : Severity)
    (p e : String)
    (h : (sev, IssueMsg.pickDiffersFromModel p e) ∈ pickIssues r f m) :
    sev = Severity.info := by
  unfold pickIssues at h
  split_ifs at h <;> simp at h <;> tauto

/-- C4: the pick recommendation is the home team when `fair < market` and the
away team otherwise, and this single rule is applied identically at
bet-placement time (`run_ui`), in tracker recalculation (`recalc_file`), and
as the expected recommendation inside the validator, where a recorded pick
deviating from it is reported at INFO severity only. -/
theorem pick_direction_rule :
    (∀ (fair market : ℚ) (away home : String),
      ui_recommendation fair market away home = (if fair < market then home else away)
      ∧ recalc_recommendation fair market away home
        = ui_recommendation fair market away home)
    ∧ (∀ (cap : ℚ) (r : BetRow) (f m : ℚ),
        r.fair = .num f → r.market = .num m →
        r.pick ≠ "" → r.away ≠ "" → r.home ≠ "" →
        (r.pick = r.away ∨ r.pick = r.home) →
        r.pick ≠ ui_recommendation f m r.away r.home →
        (Severity.info, IssueMsg.pickDiffersFromModel r.pick
          (ui_recommendation f m r.away r.home)) ∈ rowIssues cap r)
    ∧ (∀ (cap : ℚ) (r : BetRow) (sev : Severity) (p e : String),
        (sev, IssueMsg.pickDiffersFromModel p e) ∈ rowIssues cap r →
        sev = Severity.info) := by
  refine ⟨fun fair market away home => ⟨rfl, rfl⟩, ?_, ?_⟩
  · intro cap r f m hf hm hp ha hh hin hne
    have hmem : (Severity.info, IssueMsg.pickDiffersFromModel r.pick
        (ui_recommendation f m r.away r.home)) ∈ pickIssues r f m := by
      unfold pickIssues
      have hc1 : (r.pick ≠ "" && r.pick ≠ r.away && r.pick ≠ r.home) = false := by
        rcases hin with h | h <;> simp [h]
      rw [if_neg (by rw [hc1]; simp), if_pos (by simp [hp, ha, hh])]
      rw [show (if f < m then r.home else r.away)
        = ui_recommendation f m r.away r.home from rfl]
      rw [if_pos hne]
      exact List.mem_singleton.mpr rfl
    unfold rowIssues
    rw [hf, hm]
    dsimp only [FieldVal.toNum]
    exact List.mem_append_left _ (List.mem_append_left _
      (List.mem_append_right _ hmem))
  · intro cap r sev p e h
    unfold rowIssues at h
    split at h
    · rcases List.mem_append.mp h with h | h
      swap
      · exact absurd h (pickDiffers_not_mem_preflightIssues r sev p e)
      rcases List.mem_append.mp h with h | h
      swap
      · exact absurd h (pickDiffers_not_mem_capIssues cap r _ _ sev p e)
      rcases List.mem_append.mp h with h | h
      swap
      · exact pickIssues_severity r _ _ sev p e h
      rcases List.mem_append.mp h with h | h
      swap
      · exact absurd h (pickDiffers_not_mem_kellyIssues cap r _ _ sev p e)
      rcases List.mem_append.mp h with h | h
      swap
      · exact absurd h (pickDiffers_not_mem_edgeIssues cap r _ _ sev p e)
      rcases List.mem_append.mp h with h | h
      · exact absurd h (pickDiffers_not_mem_parseIssues r sev p e)
      · exact absurd h (pickDiffers_not_mem_rawEdgeIssues r _ _ sev p e)
    · rcases List.mem_append.mp h with h | h
      · exact absurd h (pickDiffers_not_mem_parseIssues r sev p e)
      · exact absurd h (pickDiffers_not_mem_preflightIssues r sev p e)

/-- A recorded row used by the C4 witness: the user overrode the model's
recommendation (picked Home although `fair ≥ market`). -/
def overrideRow : BetRow :=
  { fair := .num 4, market := .num 2, edge := .num 2, raw_edge := .num 2,
    edge_capped := "NO", kelly := .blank, pick := "Home Side",
    away := "Away Side", home := "Home Side", result := "PENDING",
    preflight := "x", preflight_note := "" }

/-- Witness for C4: the override row yields the INFO pick-deviation finding. -/
theorem pick_direction_rule_witness :
    (Severity.info, IssueMsg.pickDiffersFromModel "Home Side"
      (ui_recommendation 4 2 "Away Side" "Home Side")) ∈ rowIssues 10 overrideRow :=
  pick_direction_rule.2.1 10 overrideRow 4 2 rfl rfl
    (by simp [overrideRow]) (by simp [overrideRow]) (by simp [overrideRow])
    (Or.inr rfl)
    (by unfold overrideRow ui_recommendation
        dsimp only
        rw [if_neg (by norm_num : ¬(4 : ℚ) < 2)]
        simp)

theorem abs_eval {a b c : ℚ} (h : a - b = c) (hc : 0 ≤ c) : |a - b| = c := by
  rw [h]
  exact abs_of_nonneg hc

/-- The recorded raw-edge consistency check fires for any record whose
`Raw_Edge` deviates from `round(|Fair − Market|, 2)` by more than 0.05,
regardless of the other fields. -/
theorem rawEdge_error_mem (cap : ℚ) (r : BetRow) (f m v : ℚ)
    (hf : r.fair = .num f) (hm : r.market = .num m) (hv : r.raw_edge = .num v)
    (hgt : |v - round2 (|f - m|)| > 0.05) :
    (Severity.error, IssueMsg.rawEdgeMismatch v (round2 |f - m|))
      ∈ rowIssues cap r := by
  have hraw : (Severity.error, IssueMsg.rawEdgeMismatch v (round2 |f - m|))
      ∈ rawEdgeIssues r f m := by
    unfold rawEdgeIssues
    dsimp only
    rw [hv]
    dsimp only
    rw [if_pos hgt]
    exact List.mem_singleton.mpr rfl
  unfold rowIssues
  rw [hf, hm]
  dsimp only [FieldVal.toNum]
  exact List.mem_append_left _ (List.mem_append_left _ (List.mem_append_left _
    (List.mem_append_left _ (List.mem_append_left _
      (List.mem_append_right _ hraw)))))

/-- The recorded edge consistency check fires for any record whose `Edge`
deviates by more than 0.05 from both the capped and the uncapped expected
edge, regardless of the other fields. -/
theorem edge_error_mem (cap : ℚ) (r : BetRow) (f m ed : ℚ)
    (hf : r.fair = .num f) (hm : r.market = .num m) (he : r.edge = .num ed)
    (h1 : |ed - min (round2 (|f - m|)) cap| > 0.05)
    (h2 : |ed - round2 (|f - m|)| > 0.05) :
    (Severity.error,
      IssueMsg.edgeMismatch ed (min (round2 |f - m|) cap) (round2 |f - m|))
      ∈ rowIssues cap r := by
  have hedge : (Severity.error,
      IssueMsg.edgeMismatch ed (min (round2 |f - m|) cap) (round2 |f - m|))
      ∈ edgeIssues cap r f m := by
    unfold edgeIssues
    dsimp only
    rw [he]
    dsimp only [FieldVal.toNum]
    rw [if_pos h1, if_pos h2]
    exact List.mem_singleton.mpr rfl
  unfold rowIssues
  rw [hf, hm]
  dsimp only [FieldVal.toNum]
  exact List.mem_append_left _ (List.mem_append_left _ (List.mem_append_left _
    (List.mem_append_left _ (List.mem_append_right _ hedge))))

/-- The spec's bad record: Edge=8.0 recorded although Fair=3.0, Market=−2.0
give an expected raw edge of 5.0. -/
def badEdgeRow : BetRow :=
  { fair := .num 3, market := .num (-2), edge := .num 8, raw_edge := .blank,
    edge_capped := "", kelly := .blank, pick := "", away := "A", home := "H",
    result := "", preflight := "x", preflight_note := "" }

/-- C5: the validator accumulates findings as (severity, message) issues and
never raises; a recorded raw edge off by more than 0.05 from
`round(|Fair − Market|, 2)` yields an ERROR, a recorded Edge off by more than
0.05 from both the capped and the uncapped expected edge yields an ERROR, and
the record Edge=8.0/Fair=3.0/Market=−2.0 is flagged as an ERROR quoting the
recorded 8 and the expected 5. -/
theorem validator_edge_errors :
    (∀ (cap : ℚ) (r : BetRow) (f m v : ℚ),
      r.fair = .num f → r.market = .num m → r.raw_edge = .num v →
      |v - round2 (|f - m|)| > 0.05 →
      (Severity.error, IssueMsg.rawEdgeMismatch v (round2 |f - m|))
        ∈ rowIssues cap r)
    ∧ (∀ (cap : ℚ) (r : BetRow) (f m ed : ℚ),
      r.fair = .num f → r.market = .num m → r.edge = .num ed →
      |ed - min (round2 (|f - m|)) cap| > 0.05 → |ed - round2 (|f - m|)| > 0.05 →
      (Severity.error,
        IssueMsg.edgeMismatch ed (min (round2 |f - m|) cap) (round2 |f - m|))
        ∈ rowIssues cap r)
    ∧ (Severity.error, IssueMsg.edgeMismatch 8 5 5) ∈ rowIssues 10 badEdgeRow := by
  refine ⟨rawEdge_error_mem, edge_error_mem, ?_⟩
  have habs : |(3 : ℚ) - (-2)| = 5 :=
    abs_eval (by norm_num : (3 : ℚ) - (-2) = 5) (by norm_num)
  have hr5 : round2 |(3 : ℚ) - (-2)| = 5 := by
    rw [habs]
    norm_num [round2, pyRound]
  have habs85 : |(8 : ℚ) - 5| = 3 :=
    abs_eval (by norm_num : (8 : ℚ) - 5 = 3) (by norm_num)
  have hmin : min (5 : ℚ) 10 = 5 := by norm_num
  have hmem := edge_error_mem 10 badEdgeRow 3 (-2) 8 rfl rfl rfl
    (by rw [hr5, hmin, habs85]; norm_num)
    (by rw [hr5, habs85]; norm_num)
  rw [hr5, hmin] at hmem
  exact hmem

/-- A record whose raw edge was logged as 8 although Fair=3, Market=−2. -/
def badRawRow : BetRow :=
  { fair := .num 3, market := .num (-2), edge := .blank, raw_edge := .num 8,
    edge_capped := "", kelly := .blank, pick := "", away := "A", home := "H",
    result := "", preflight := "x", preflight_note := "" }

/-- Witness for C5: the raw-edge ERROR fires on a concrete record. -/
theorem validator_edge_errors_witness :
    (Severity.error, IssueMsg.rawEdgeMismatch 8 (round2 |(3 : ℚ) - (-2)|))
      ∈ rowIssues 10 badRawRow :=
  validator_edge_errors.1 10 badRawRow 3 (-2) 8 rfl rfl rfl
    (by rw [show round2 |(3 : ℚ) - (-2)| = 5 from by
          rw [abs_eval (by norm_num : (3 : ℚ) - (-2) = 5) (by norm_num)]
          norm_num [round2, pyRound]]
        rw [abs_eval (by norm_num : (8 : ℚ) - 5 = 3) (by norm_num)]
        norm_num)

theorem calculate_kelly_3_18 : calculate_kelly 3 18 = 9.26 := by
  unfold calculate_kelly
  dsimp only
  rw [abs_eval (by norm_num : (18 : ℚ) - 3 = 15) (by norm_num)]
  norm_num [min_def, max_def, round2, pyRound]

theorem calculate_kelly_3_13 : calculate_kelly 3 13 = 7.89 := by
  unfold calculate_kelly
  dsimp only
  rw [abs_eval (by norm_num : (13 : ℚ) - 3 = 10) (by norm_num)]
  norm_num [min_def, max_def, round2, pyRound]

/-- C10: `calculate_kelly` takes no edge-cap input — it depends only on the
uncapped `|fair − market|` — while the bet-placement flow logs the capped
Edge next to a Kelly computed from the raw fair line; the validator
recomputes its expected Kelly from the capped edge via a synthetic fair line,
so a record logged by the engine's own flow with raw edge 15 and cap 10
(Kelly 9.26 logged vs 7.89 expected) triggers the Kelly-drift WARNING. -/
theorem kelly_ignores_edge_cap :
    (∀ (m f m' f' : ℚ), |f - m| = |f' - m'| →
      calculate_kelly m f = calculate_kelly m' f')
    ∧ (∀ (fair_line market cap : ℚ) (away home : String),
        (uiLogRow fair_line market cap away home).kelly
          = .num (calculate_kelly market fair_line)
        ∧ (uiLogRow fair_line market cap away home).edge
          = .num (min (round2 |fair_line - market|) cap)
        ∧ (uiLogRow fair_line market cap away home).raw_edge
          = .num (round2 |fair_line - market|))
    ∧ (Severity.warn, IssueMsg.kellyDrift (9.26 : ℚ) (7.89 : ℚ))
        ∈ rowIssues 10 (uiLogRow 18 3 10 "Away Side" "Home Side") := by
  refine ⟨?_, fun fair_line market cap away home => ⟨rfl, rfl, rfl⟩, ?_⟩
  · intro m f m' f' h
    unfold calculate_kelly
    dsimp only
    rw [h]
  · have hr15 : round2 |(18 : ℚ) - 3| = 15 := by
      rw [abs_eval (by norm_num : (18 : ℚ) - 3 = 15) (by norm_num)]
      norm_num [round2, pyRound]
    have hker : (Severity.warn, IssueMsg.kellyDrift (9.26 : ℚ) (7.89 : ℚ))
        ∈ kellyIssues 10 (uiLogRow 18 3 10 "Away Side" "Home Side") 18 3 := by
      unfold kellyIssues
      dsimp only
      rw [show (uiLogRow 18 3 10 "Away Side" "Home Side").kelly
          = FieldVal.num (calculate_kelly 3 18) from rfl, calculate_kelly_3_18]
      dsimp only
      rw [show (uiLogRow 18 3 10 "Away Side" "Home Side").edge.toNum
          = some (min (round2 |(18 : ℚ) - 3|) 10) from rfl]
      rw [hr15, show min (15 : ℚ) 10 = 10 from by norm_num]
      rw [show ((some (10 : ℚ)).getD (10 : ℚ)) = 10 from rfl]
      rw [if_pos (by norm_num : (10 : ℚ) < 15)]
      rw [if_pos (by norm_num : (18 : ℚ) > 3)]
      rw [show (3 : ℚ) + 10 = 13 from by norm_num, calculate_kelly_3_13]
      rw [if_pos (by
        rw [abs_eval (by norm_num : (9.26 : ℚ) - 7.89 = 1.37) (by norm_num)]
        norm_num)]
      exact List.mem_singleton.mpr rfl
    unfold rowIssues
    rw [show (uiLogRow 18 3 10 "Away Side" "Home Side").fair.toNum
        = some (18 : ℚ) from rfl,
      show (uiLogRow 18 3 10 "Away Side" "Home Side").market.toNum
        = some (3 : ℚ) from rfl]
    dsimp only
    exact List.mem_append_left _ (List.mem_append_left _ (List.mem_append_left _
      (List.mem_append_right _ hker)))

/-- Witness for C10: the edge-invariance of `calculate_kelly` applied at a
concrete pair of lines with equal raw edge. -/
theorem kelly_ignores_edge_cap_witness :
    |(7 : ℚ) - 2| = |(5 : ℚ) - 0|
    ∧ calculate_kelly 2 7 = calculate_kelly 0 5 :=
  ⟨by rw [abs_eval (by norm_num : (7 : ℚ) - 2 = 5) (by norm_num),
      abs_eval (by norm_num : (5 : ℚ) - 0 = 5) (by norm_num)],
    kelly_ignores_edge_cap.1 2 7 0 5 (by
      rw [abs_eval (by norm_num : (7 : ℚ) - 2 = 5) (by norm_num),
        abs_eval (by norm_num : (5 : ℚ) - 0 = 5) (by norm_num)])⟩

end NbaEngine
